import Mathlib

/-!
Verification of the core of the bun-scan repository: the multi-source
vulnerability aggregation pipeline.  Each definition is a shallow embedding of
one function of the TypeScript source.  JavaScript objects become structures,
`Map` becomes an insertion-ordered association list, `Set` becomes an
insertion-ordered duplicate-free list, and JavaScript numbers that carry exact
decimal values in the code paths under study become rationals.  Object
identity (JavaScript `Set` membership for objects) is modelled by structural
equality; in every scenario proved below the distinction is immaterial because
the advisories involved are pairwise structurally distinct.
-/

namespace BunScan

/-- Advisory level, the TypeScript union type "fatal" | "warn"
(Bun.Security.Advisory, src/packages/scanner/types/index.d.ts). -/
inductive Level where
  | fatal
  | warn
deriving DecidableEq, Repr

/-- Bun.Security.Advisory: the normalized output unit.  The aliases field is
optional (the OSV processor builds advisories without it, the npm processor
always sets it). -/
structure Advisory where
  id : String
  message : String
  level : Level
  package : String
  url : Option String
  description : Option String
  aliases : Option (List String)
deriving DecidableEq, Repr

/-- Insertion-order duplicate removal with an accumulator of already-seen
elements: the behaviour of building a JavaScript Set from a list and
iterating it (first occurrence survives, order preserved). -/
def setDedupAux {α : Type} [DecidableEq α] (seen : List α) : List α → List α
  | [] => []
  | x :: xs =>
      if x ∈ seen then setDedupAux seen xs
      else x :: setDedupAux (x :: seen) xs

/-- JavaScript new Set(list) iterated back to an array. -/
def setDedup {α : Type} [DecidableEq α] (l : List α) : List α :=
  setDedupAux [] l

/-- Lookup in an insertion-ordered map (JavaScript Map.get). -/
def mapGet (m : List (String × Advisory)) (k : String) : Option Advisory :=
  (m.find? (fun e => e.1 = k)).map (fun e => e.2)

/-- Membership in an insertion-ordered map (JavaScript Map.has). -/
def mapHas (m : List (String × Advisory)) (k : String) : Bool :=
  m.any (fun e => e.1 = k)

/-- Update of an insertion-ordered map (JavaScript Map.set): an existing key
keeps its position, a fresh key is appended. -/
def mapSet (m : List (String × Advisory)) (k : String) (v : Advisory) :
    List (String × Advisory) :=
  if mapHas m k then m.map (fun e => if e.1 = k then (k, v) else e)
  else m ++ [(k, v)]

/-- Severity priority from multi.ts: fatal = 2, warn = 1 (the ?? 0 fallback in
the source is unreachable because Level has exactly these two values). -/
def levelPriority : Level → Nat
  | .fatal => 2
  | .warn => 1

/-- isHigherSeverity from multi.ts: true when a is strictly higher severity
than b. -/
def isHigherSeverity (a b : Level) : Bool :=
  decide (levelPriority b < levelPriority a)

/-- Identity set of an advisory in Set insertion order:
new Set([advisory.id, ...(advisory.aliases ?? [])]). -/
def advisoryIds (a : Advisory) : List String :=
  setDedup (a.id :: a.aliases.getD [])

/-- Loop body of deduplicateAdvisories (multi.ts): fold one incoming advisory
into the map from "package:id" keys to winning advisories.  The getD default
mirrors the source's non-null assertion map.get(existingKey)! and is
unreachable, because find? only returns keys the map holds. -/
def dedupInsert (map : List (String × Advisory)) (advisory : Advisory) :
    List (String × Advisory) :=
  let currentIds := advisoryIds advisory
  let packageKey := advisory.package
  match currentIds.find? (fun id => mapHas map (packageKey ++ ":" ++ id)) with
  | none =>
      currentIds.foldl (fun m id => mapSet m (packageKey ++ ":" ++ id) advisory) map
  | some hitId =>
      let existing := (mapGet map (packageKey ++ ":" ++ hitId)).getD advisory
      let winner := if isHigherSeverity advisory.level existing.level then advisory else existing
      let mergedIds := setDedup (currentIds ++ advisoryIds existing)
      mergedIds.foldl (fun m id => mapSet m (packageKey ++ ":" ++ id) winner) map

/-- The key-to-advisory map built by deduplicateAdvisories over the whole
input list. -/
def dedupMap (advisories : List Advisory) : List (String × Advisory) :=
  advisories.foldl dedupInsert []

/-- deduplicateAdvisories (multi.ts): build the map, then
Array.from(new Set(map.values())). -/
def deduplicateAdvisories (advisories : List Advisory) : List Advisory :=
  setDedup ((dedupMap advisories).map (fun e => e.2))

/-- The advisory collection loop of MultiSourceScanner.scan: each settled
source result contributes its advisories when fulfilled and nothing when
rejected (the rejection is only logged). -/
def collectSettled (results : List (Except String (List Advisory))) : List Advisory :=
  results.foldl
    (fun acc r => match r with
      | .ok advisories => acc ++ advisories
      | .error _ => acc)
    []

/-- MultiSourceScanner.scan (multi.ts), with the settled per-source results as
input: Promise.allSettled yields exactly one fulfilled-or-rejected outcome per
source, in source order. -/
def scanMulti (results : List (Except String (List Advisory))) : List Advisory :=
  deduplicateAdvisories (collectSettled results)

/-! Retry executor (src/packages/core/src/retry.ts).  The delay arithmetic
(delayMs * 1.5 ** (attempt - 1)) is carried out on rationals; for the values
in the claims (powers of 3/2 times 100) the JavaScript double computation is
exact, so the rational model agrees with the source. -/

/-- RetryConfig from retry.ts.  shouldRetry is optional; errors are modelled
by their message string, the only part the source consults. -/
structure RetryConfig where
  maxAttempts : Nat
  delayMs : ℚ
  shouldRetry : Option (String → Bool)

/-- The expression config.shouldRetry?.(lastError) ?? true from retry.ts. -/
def shouldRetryD (cfg : RetryConfig) (e : String) : Bool :=
  match cfg.shouldRetry with
  | some f => f e
  | none => true

/-- The attempt loop of withRetry.  The operation is modelled as a function
from the attempt number to that attempt's settled outcome.  remaining is the
number of loop iterations still allowed (maxAttempts - attempt + 1); the
remaining = 0 case returns the initial lastError ("Unknown error"), reachable
only when maxAttempts is zero, exactly as in the source.  The first component
records the sleep durations in order. -/
def withRetryGo {α : Type} (cfg : RetryConfig) (op : Nat → Except String α) :
    Nat → Nat → List ℚ × Except String α
  | _, 0 => ([], .error "Unknown error")
  | attempt, remaining + 1 =>
      match op attempt with
      | .ok v => ([], .ok v)
      | .error e =>
          if remaining = 0 ∨ shouldRetryD cfg e = false then ([], .error e)
          else
            let delay := cfg.delayMs * (3 / 2 : ℚ) ^ (attempt - 1)
            let rest := withRetryGo cfg op (attempt + 1) remaining
            (delay :: rest.1, rest.2)

/-- withRetry from retry.ts: run the loop from attempt 1 with maxAttempts
iterations allowed, returning the recorded sleep durations together with the
final outcome (a value, or the re-raised last error). -/
def withRetry {α : Type} (cfg : RetryConfig) (op : Nat → Except String α) :
    List ℚ × Except String α :=
  withRetryGo cfg op 1 cfg.maxAttempts

/-! Ignore policy (config.ts, the compiled form). -/

/-- CompiledPackageRule from config.ts; the Set of vulnerability ids is
modelled as a list consulted by membership only. -/
structure CompiledPackageRule where
  vulnerabilitiesSet : List String
  until? : Option String
  reason? : Option String
deriving DecidableEq, Repr

/-- CompiledIgnoreConfig from config.ts. -/
structure CompiledIgnoreConfig where
  ignoreSet : List String
  packages : List (String × CompiledPackageRule)
deriving DecidableEq, Repr

/-- IgnorePackageRule from config.ts (the raw, uncompiled rule). -/
structure IgnorePackageRule where
  vulnerabilities : Option (List String)
  until? : Option String
  reason? : Option String
deriving DecidableEq, Repr

/-- IgnoreConfig from config.ts (the raw user configuration). -/
structure IgnoreConfig where
  ignore : Option (List String)
  packages : Option (List (String × IgnorePackageRule))
deriving DecidableEq, Repr

/-- compileIgnoreConfig from config.ts. -/
def compileIgnoreConfig (config : IgnoreConfig) : CompiledIgnoreConfig :=
  { ignoreSet := config.ignore.getD []
    packages :=
      (config.packages.getD []).map
        (fun e => (e.1, ⟨e.2.vulnerabilities.getD [], e.2.until?, e.2.reason?⟩)) }

/-- Result shape of shouldIgnoreVulnerability. -/
structure IgnoreResult where
  ignored : Bool
  reason : Option String
deriving DecidableEq, Repr

/-- The expression new Date(rule.until) < new Date() from config.ts.  Date
parsing is a platform capability, modelled by an injected parseDate; an
unparsable string yields none (JavaScript Invalid Date), and every comparison
against Invalid Date is false, so the rule is then treated as not expired. -/
def untilExpired (parseDate : String → Option Int) (now : Int) (untilStr : String) : Bool :=
  match parseDate untilStr with
  | some t => decide (t < now)
  | none => false

/-- shouldIgnoreVulnerability from config.ts.  packageName is the raw
string-or-undefined argument; the JavaScript truthiness tests
if (packageName) and if (rule.until) also reject the empty string. -/
def shouldIgnoreVulnerability (parseDate : String → Option Int) (now : Int)
    (vulnId : String) (vulnAliases : Option (List String))
    (packageName : Option String) (config : CompiledIgnoreConfig) : IgnoreResult :=
  let idsToCheck := vulnId :: vulnAliases.getD []
  match idsToCheck.find? (fun id => config.ignoreSet.contains id) with
  | some id => ⟨true, some ("globally ignored (" ++ id ++ ")")⟩
  | none =>
      match packageName with
      | none => ⟨false, none⟩
      | some name =>
          if name = "" then ⟨false, none⟩
          else
            match (config.packages.find? (fun e => e.1 = name)).map (fun e => e.2) with
            | none => ⟨false, none⟩
            | some rule =>
                if (match rule.until? with
                    | some u => if u = "" then false else untilExpired parseDate now u
                    | none => false) then
                  ⟨false, none⟩
                else
                  match idsToCheck.find? (fun id => rule.vulnerabilitiesSet.contains id) with
                  | some id =>
                      ⟨true, some
                        (match rule.reason? with
                         | some r => "package rule: " ++ r
                         | none => "ignored for " ++ name ++ " (" ++ id ++ ")")⟩
                  | none => ⟨false, none⟩

/-! Version matcher (isVersionAffected, src/packages/source-npm/src/processor.ts).
Bun.semver.satisfies is a platform builtin, modelled as an injected oracle that
either returns a boolean or throws (Except.error). -/

/-- isVersionAffected from processor.ts: call the semver oracle inside
try/catch; any thrown error is logged and turned into false. -/
def isVersionAffected (satisfies : String → String → Except String Bool)
    (version vulnerableVersions : String) : Bool :=
  match satisfies version vulnerableVersions with
  | .ok b => b
  | .error _ => false

/-! npm source processor (src/packages/source-npm/src/processor.ts) and its
advisory schema (NpmAdvisorySchema).  String lengths are modelled as character
counts; the examples in the claims are ASCII, where the JavaScript UTF-16
length coincides. -/

/-- Bun.Security.Package: only name and version are consulted by the core. -/
structure Package where
  name : String
  version : String
deriving DecidableEq, Repr

/-- The cvss object of NpmAdvisorySchema: score is a JSON number, carried as a
rational. -/
structure NpmCvss where
  score : ℚ
  vectorString : Option String
deriving DecidableEq, Repr

/-- NpmAdvisory (schema.ts of @repo/source-npm).  The id field is
string-or-number in the schema and is used only through string interpolation
and String(id), so it is carried in its string rendering.  Fields the
processor never reads (findings, cwe, timestamps, ...) are omitted. -/
structure NpmAdvisory where
  id : String
  title : String
  name : Option String
  module_name : Option String
  severity : String
  vulnerable_versions : String
  url : String
  overview : Option String
  recommendation : Option String
  cves : Option (List String)
  github_advisory_id : Option String
  cvss : Option NpmCvss
deriving DecidableEq, Repr

/-- Uppercase a string character by character (String.prototype.toUpperCase on
the ASCII identifiers appearing here). -/
def stringToUpper (s : String) : String :=
  String.mk (s.toList.map Char.toUpper)

/-- Character class [0-9a-z] under the case-insensitive flag of the GHSA
regex in processor.ts. -/
def ghsaChunkChar (c : Char) : Bool :=
  c.isDigit || (('a' ≤ c.toLower) && (c.toLower ≤ 'z'))

/-- Test whether the regex GHSA-[0-9a-z]/i pattern
(GHSA- then three dash-separated groups of four) matches at the head of the
character list. -/
def ghsaAt (cs : List Char) : Bool :=
  ((cs.take 5).map Char.toLower == "ghsa-".toList) &&
  ((cs.drop 5).take 4).length == 4 && ((cs.drop 5).take 4).all ghsaChunkChar &&
  ((cs.drop 9).take 1 == ['-']) &&
  ((cs.drop 10).take 4).length == 4 && ((cs.drop 10).take 4).all ghsaChunkChar &&
  ((cs.drop 14).take 1 == ['-']) &&
  ((cs.drop 15).take 4).length == 4 && ((cs.drop 15).take 4).all ghsaChunkChar

/-- Scan for the first GHSA match, as String.prototype.match does. -/
def extractGhsaFromUrlAux : List Char → Option String
  | [] => none
  | c :: rest =>
      if ghsaAt (c :: rest) then some (String.mk (((c :: rest).take 19).map Char.toUpper))
      else extractGhsaFromUrlAux rest

/-- extractGhsaFromUrl from processor.ts: first case-insensitive GHSA id in
the URL, uppercased. -/
def extractGhsaFromUrl (url : String) : Option String :=
  extractGhsaFromUrlAux url.toList

/-- buildAliases from processor.ts: a Set seeded with the cves list and the
uppercased github_advisory_id (a truthy ternary, so an empty id contributes
nothing), then the GHSA id extracted from the URL is added, and the Set is
read back in insertion order. -/
def buildAliases (a : NpmAdvisory) : List String :=
  let ghsaId : List String :=
    match a.github_advisory_id with
    | some g => if g = "" then [] else [stringToUpper g]
    | none => []
  let aliases := setDedup ((a.cves.getD []) ++ ghsaId)
  match extractGhsaFromUrl a.url with
  | some g => if g ∈ aliases then aliases else aliases ++ [g]
  | none => aliases

/-- Modelled from the spec: SECURITY.MAX_DESCRIPTION_LENGTH of
@repo/source-npm (constants.ts is absent from src; the spec fixes only that a
fixed maximum length exists).  No claim depends on the exact value. -/
def MAX_DESCRIPTION_LENGTH : Nat := 300

/-- Whitespace trimmed by String.prototype.trim (ASCII portion). -/
def jsWhitespace (c : Char) : Bool :=
  c = ' ' || c = '\t' || c = '\n' || c = '\r' || c = '\x0b' || c = '\x0c'

/-- String.prototype.trim. -/
def trimString (s : String) : String :=
  String.mk (((s.toList.dropWhile jsWhitespace).reverse.dropWhile jsWhitespace).reverse)

/-- Sentence terminators of the first-sentence regex in processor.ts. -/
def sentenceEnd (c : Char) : Bool := c = '.' || c = '!' || c = '?'

/-- The first-sentence regex of processor.ts: the shortest prefix ending in a
sentence terminator, or none when no terminator occurs. -/
def firstSentenceQ (s : String) : Option String :=
  let cs := s.toList
  match cs.dropWhile (fun c => !sentenceEnd c) with
  | [] => none
  | t :: _ => some (String.mk (cs.takeWhile (fun c => !sentenceEnd c) ++ [t]))

/-- substring(0, MAX_DESCRIPTION_LENGTH - 3) followed by an ellipsis. -/
def truncateWithEllipsis (cs : List Char) : String :=
  String.mk (cs.take (MAX_DESCRIPTION_LENGTH - 3)) ++ "..."

/-- getAdvisoryDescription from processor.ts: prefer the trimmed overview
(possibly cut to the first sentence or hard-truncated), else the trimmed
recommendation (possibly hard-truncated), else none. -/
def getAdvisoryDescription (a : NpmAdvisory) : Option String :=
  let overview := trimString (a.overview.getD "")
  if overview ≠ "" then
    if overview.toList.length ≤ MAX_DESCRIPTION_LENGTH then some overview
    else
      match firstSentenceQ overview with
      | some fs =>
          if fs.toList.length ≤ MAX_DESCRIPTION_LENGTH then some fs
          else some (truncateWithEllipsis overview.toList)
      | none => some (truncateWithEllipsis overview.toList)
  else
    let recommendation := trimString (a.recommendation.getD "")
    if recommendation ≠ "" then
      if recommendation.toList.length ≤ MAX_DESCRIPTION_LENGTH then some recommendation
      else some (truncateWithEllipsis recommendation.toList)
    else none

/-- Modelled from the spec: mapSeverityToLevel of @repo/source-npm
(severity.ts is absent from src; its caller createBunAdvisory passes only the
textual severity enum, and the FatalSeverity declaration in src names
"critical" and "high").  A textual severity of critical or high
(case-insensitively, per spec §4.3) is fatal, every other value is warn. -/
def npmMapSeverityToLevel (severity : String) : Level :=
  let l := severity.toList.map Char.toLower
  if l == "critical".toList || l == "high".toList then .fatal else .warn

/-- createBunAdvisory from processor.ts.  The message falls back to
"Security advisory id" when the title is falsy (empty). -/
def createBunAdvisory (advisory : NpmAdvisory) (pkg : Package) (aliases : List String) :
    Advisory :=
  { id := advisory.id
    message := if advisory.title = "" then "Security advisory " ++ advisory.id else advisory.title
    level := npmMapSeverityToLevel advisory.severity
    package := pkg.name
    url := some advisory.url
    description := getAdvisoryDescription advisory
    aliases := some aliases }

/-- The expression advisory.name || advisory.module_name with JavaScript
truthiness (empty strings are falsy), followed by the !advisoryPackageName
guard in processAdvisory. -/
def advisoryPackageName (a : NpmAdvisory) : Option String :=
  let n := if (a.name.getD "") ≠ "" then a.name.getD "" else a.module_name.getD ""
  if n = "" then none else some n

/-- The template literal advisory.id : pkg.name @ pkg.version used as the
processed-pairs key in processAdvisory. -/
def pairKey (a : NpmAdvisory) (pkg : Package) : String :=
  a.id ++ ":" ++ pkg.name ++ "@" ++ pkg.version

/-- The package loop of processAdvisory (processor.ts), with the mutated
processedPairs Set threaded as a list consulted by membership.  Returns the
advisories emitted for this npm advisory together with the updated
processed-pairs set. -/
def processAdvisoryGo (satisfies : String → String → Except String Bool)
    (parseDate : String → Option Int) (now : Int) (cfg : CompiledIgnoreConfig)
    (advisory : NpmAdvisory) (pname : String) (aliases : List String) :
    List Package → List String → List Advisory × List String
  | [], processed => ([], processed)
  | pkg :: rest, processed =>
      if pkg.name ≠ pname then
        processAdvisoryGo satisfies parseDate now cfg advisory pname aliases rest processed
      else if pairKey advisory pkg ∈ processed then
        processAdvisoryGo satisfies parseDate now cfg advisory pname aliases rest processed
      else if isVersionAffected satisfies pkg.version advisory.vulnerable_versions then
        if (shouldIgnoreVulnerability parseDate now advisory.id (some aliases)
              (some pkg.name) cfg).ignored then
          processAdvisoryGo satisfies parseDate now cfg advisory pname aliases rest
            (pairKey advisory pkg :: processed)
        else
          let r := processAdvisoryGo satisfies parseDate now cfg advisory pname aliases rest
            (pairKey advisory pkg :: processed)
          (createBunAdvisory advisory pkg aliases :: r.1, r.2)
      else
        processAdvisoryGo satisfies parseDate now cfg advisory pname aliases rest processed

/-- processAdvisory from processor.ts: resolve the advisory's package name,
build the aliases once, then walk the input package list. -/
def processAdvisory (satisfies : String → String → Except String Bool)
    (parseDate : String → Option Int) (now : Int) (cfg : CompiledIgnoreConfig)
    (advisory : NpmAdvisory) (packages : List Package) (processed : List String) :
    List Advisory × List String :=
  match advisoryPackageName advisory with
  | none => ([], processed)
  | some pname =>
      processAdvisoryGo satisfies parseDate now cfg advisory pname (buildAliases advisory)
        packages processed

/-- processAdvisories from processor.ts: early return on an empty input, then
fold processAdvisory over the advisories with one shared processed-pairs
set. -/
def processAdvisories (satisfies : String → String → Except String Bool)
    (parseDate : String → Option Int) (now : Int) (ignoreConfig : IgnoreConfig)
    (advisories : List NpmAdvisory) (packages : List Package) : List Advisory :=
  if advisories.length = 0 ∨ packages.length = 0 then []
  else
    let cfg := compileIgnoreConfig ignoreConfig
    (advisories.foldl
      (fun acc a =>
        let r := processAdvisory satisfies parseDate now cfg a packages acc.2
        (acc.1 ++ r.1, r.2))
      ([], [])).1

/-! OSV severity classifier.  The implementation file
src/packages/source-osv/src/severity.ts is absent from src; only its test
table (severity.test.ts) and callers are present, so the classifier is
modelled from the spec (§4.3) here. -/

/-- One entry of the OSV severity array: a type tag (CVSS_V2, CVSS_V3, ...)
and a score that is a bare number or a vector string. -/
structure OSVSeverityEntry where
  type : String
  score : String
deriving DecidableEq, Repr

/-- The database_specific object of an OSV record (the severity field only). -/
structure OSVDatabaseSpecific where
  severity : Option String
deriving DecidableEq, Repr

/-- OSVVulnerability restricted to the fields the severity classifier reads. -/
structure OSVVulnerability where
  id : String
  database_specific : Option OSVDatabaseSpecific
  severity : Option (List OSVSeverityEntry)
deriving DecidableEq, Repr

/-- A parsed decimal numeral, kept exact and unreduced: the pair (n, k)
denotes the value n / 10 ^ k.  JavaScript parseFloat on the short decimal
score tokens appearing in CVSS data is exact in doubles, so the comparisons
below agree with the source's number comparisons. -/
abbrev DecScore := Nat × Nat

/-- The rational value denoted by a parsed decimal score (used in statements
only). -/
def decScoreQ (d : DecScore) : ℚ :=
  (d.1 : ℚ) / (10 : ℚ) ^ d.2

/-- Comparison a ≤ b of two parsed decimal scores by cross multiplication. -/
def decScoreLe (a b : DecScore) : Bool :=
  decide (a.1 * 10 ^ b.2 ≤ b.1 * 10 ^ a.2)

/-- The inclusive fatal threshold: 7.0 ≤ d. -/
def decScoreFatal (d : DecScore) : Bool :=
  decide (7 * 10 ^ d.2 ≤ d.1)

/-- Parse a run of decimal digits most-significant first; none on an empty or
non-digit input. -/
def parseDigits : List Char → Option Nat
  | [] => none
  | cs =>
      cs.foldl
        (fun acc c =>
          match acc with
          | some n => if c.isDigit then some (n * 10 + (c.toNat - '0'.toNat)) else none
          | none => none)
        (some 0)

/-- Parse a decimal numeral such as 7 or 9.8; none when the token is not a
plain decimal numeral. -/
def parseDecimal (s : String) : Option DecScore :=
  let cs := s.toList
  let intPart := cs.takeWhile (fun c => c ≠ '.')
  match cs.dropWhile (fun c => c ≠ '.') with
  | [] => (parseDigits intPart).map (fun n => (n, 0))
  | _ :: frac =>
      match parseDigits intPart, parseDigits frac with
      | some n, some f => some (n * 10 ^ frac.length + f, frac.length)
      | _, _ => none

/-- The trailing token of a vector string: everything after the last slash
(the whole string when there is no slash). -/
def trailingScoreToken (s : String) : String :=
  String.mk ((s.toList.reverse.takeWhile (fun c => c ≠ '/')).reverse)

/-- Modelled from the spec: a score may be a bare number or embedded in a
vector string whose trailing numeric token is the score. -/
def parseScore (s : String) : Option DecScore :=
  parseDecimal (trailingScoreToken s)

/-- CVSS-style entries are those whose type tag starts with CVSS. -/
def isCvssType (t : String) : Bool :=
  t.toList.take 4 == "CVSS".toList

/-- The numeric scores of a record's CVSS-style severity entries. -/
def cvssScores (v : OSVVulnerability) : List DecScore :=
  (v.severity.getD []).filterMap
    (fun e => if isCvssType e.type then parseScore e.score else none)

/-- Maximum of a list of scores, none when empty. -/
def maxScore : List DecScore → Option DecScore
  | [] => none
  | x :: xs =>
      match maxScore xs with
      | none => some x
      | some m => some (if decScoreLe x m then m else x)

/-- An explicit textual database severity that is CRITICAL or HIGH,
case-insensitively. -/
def textualFatal (v : OSVVulnerability) : Bool :=
  match v.database_specific.bind (fun d => d.severity) with
  | some s =>
      (s.toList.map Char.toUpper == "CRITICAL".toList) ||
      (s.toList.map Char.toUpper == "HIGH".toList)
  | none => false

/-- Modelled from the spec: mapSeverityToLevel of @repo/source-osv
(severity.ts is absent from src; spec §4.3 and the test table in
severity.test.ts fix its behaviour).  A fatal textual severity
short-circuits; otherwise the maximum CVSS-style score decides at the
inclusive 7.0 threshold; with no usable signal the result is warn. -/
def mapSeverityToLevel (v : OSVVulnerability) : Level :=
  if textualFatal v then .fatal
  else
    match maxScore (cvssScores v) with
    | some m => if decScoreFatal m then .fatal else .warn
    | none => .warn

/-! Helper lemmas. -/

/-- Concatenation onto a nonempty string stays nonempty. -/
theorem string_append_ne_empty {s : String} (t : String) (h : s ≠ "") : s ++ t ≠ "" := by
  intro he
  apply h
  cases s
  cases t
  simp_all [String.ext_iff]

/-- The check-set list walked by shouldIgnoreVulnerability. -/
def idsToCheck (vulnId : String) (vulnAliases : Option (List String)) : List String :=
  vulnId :: vulnAliases.getD []

/-! C9: the version matcher is total and fails closed. -/

/-- C9: for every version string and affected-version specification, the
version matcher is total and fails closed: whatever the underlying semver
oracle does, isVersionAffected returns a boolean (it cannot throw past this
boundary); when the oracle throws, the result is false (not affected), and
when the oracle answers, that answer is returned. -/
theorem C9_version_matcher_fail_closed
    (satisfies : String → String → Except String Bool) (version range : String) :
    (∀ e, satisfies version range = .error e →
        isVersionAffected satisfies version range = false) ∧
    (∀ b, satisfies version range = .ok b →
        isVersionAffected satisfies version range = b) := by
  constructor
  · intro e h
    simp [isVersionAffected, h]
  · intro b h
    simp [isVersionAffected, h]

/-- A semver oracle that throws on its input, standing for
Bun.semver.satisfies on a malformed range. -/
def semverThrowing : String → String → Except String Bool :=
  fun _ _ => .error "invalid range"

/-- Witness for C9 at a concrete unparsable range. -/
theorem C9_version_matcher_fail_closed_witness :
    semverThrowing "1.2.3" "not-a/range" = .error "invalid range" ∧
    isVersionAffected semverThrowing "1.2.3" "not-a/range" = false :=
  ⟨rfl, (C9_version_matcher_fail_closed semverThrowing "1.2.3" "not-a/range").1
    "invalid range" rfl⟩

/-! C10: results of shouldIgnoreVulnerability are well-formed. -/

/-- Every result of shouldIgnoreVulnerability has one of two shapes: not
ignored with no reason, or ignored with a nonempty reason. -/
theorem shouldIgnore_shape (parseDate : String → Option Int) (now : Int)
    (vulnId : String) (vulnAliases : Option (List String)) (packageName : Option String)
    (config : CompiledIgnoreConfig) :
    shouldIgnoreVulnerability parseDate now vulnId vulnAliases packageName config =
        ⟨false, none⟩ ∨
    ∃ s, shouldIgnoreVulnerability parseDate now vulnId vulnAliases packageName config =
        ⟨true, some s⟩ ∧ s ≠ "" := by
  simp only [shouldIgnoreVulnerability]
  repeat' split
  all_goals
    first
      | (left; rfl)
      | (right
         refine ⟨_, rfl, ?_⟩
         repeat' apply string_append_ne_empty
         decide)

/-- C10: whenever shouldIgnoreVulnerability reports ignored it carries a
nonempty reason string, and whenever it reports not-ignored it carries no
reason at all. -/
theorem C10_ignore_result_well_formed (parseDate : String → Option Int) (now : Int)
    (vulnId : String) (vulnAliases : Option (List String)) (packageName : Option String)
    (config : CompiledIgnoreConfig) :
    ((shouldIgnoreVulnerability parseDate now vulnId vulnAliases packageName config).ignored =
        true →
      ∃ s, (shouldIgnoreVulnerability parseDate now vulnId vulnAliases packageName
              config).reason = some s ∧ s ≠ "") ∧
    ((shouldIgnoreVulnerability parseDate now vulnId vulnAliases packageName config).ignored =
        false →
      (shouldIgnoreVulnerability parseDate now vulnId vulnAliases packageName
          config).reason = none) := by
  rcases shouldIgnore_shape parseDate now vulnId vulnAliases packageName config with
    h | ⟨s, hs, hne⟩
  · exact ⟨fun hI => by simp [h] at hI, fun _ => by simp [h]⟩
  · exact ⟨fun _ => ⟨s, by simp [hs], hne⟩, fun hI => by simp [hs] at hI⟩

/-- A hit in the global ignore set decides the result before any per-package
rule is consulted: some matched id from the check set is reported with the
globally-ignored reason. -/
theorem shouldIgnore_global_hit (parseDate : String → Option Int) (now : Int)
    (vulnId : String) (vulnAliases : Option (List String)) (packageName : Option String)
    (config : CompiledIgnoreConfig)
    (h : ∃ id ∈ idsToCheck vulnId vulnAliases, id ∈ config.ignoreSet) :
    ∃ id, id ∈ idsToCheck vulnId vulnAliases ∧ id ∈ config.ignoreSet ∧
      shouldIgnoreVulnerability parseDate now vulnId vulnAliases packageName config =
        ⟨true, some ("globally ignored (" ++ id ++ ")")⟩ := by
  have hsome : (List.find? (fun id => config.ignoreSet.contains id)
      (vulnId :: vulnAliases.getD [])).isSome := by
    rw [List.find?_isSome]
    obtain ⟨id, hmem, hin⟩ := h
    refine ⟨id, by simpa [idsToCheck] using hmem, by simpa using hin⟩
  obtain ⟨id0, hfind⟩ := Option.isSome_iff_exists.mp hsome
  refine ⟨id0, by simpa [idsToCheck] using List.mem_of_find?_eq_some hfind,
    by simpa using List.find?_some hfind, ?_⟩
  simp only [shouldIgnoreVulnerability]
  rw [hfind]

/-- CVE in the aliases of a concrete policy, for the C10 witness. -/
def sampleIgnorePolicy : CompiledIgnoreConfig :=
  ⟨["CVE-2024-1234"], []⟩

/-- Witness for C10: an ignored result carries its nonempty reason. -/
theorem C10_ignore_result_well_formed_witness :
    (shouldIgnoreVulnerability (fun _ => none) 0 "GHSA-aaaa-bbbb-cccc"
        (some ["CVE-2024-1234"]) (some "left-pad") sampleIgnorePolicy).ignored = true ∧
    ∃ s, (shouldIgnoreVulnerability (fun _ => none) 0 "GHSA-aaaa-bbbb-cccc"
        (some ["CVE-2024-1234"]) (some "left-pad") sampleIgnorePolicy).reason =
          some s ∧ s ≠ "" :=
  ⟨by decide,
   (C10_ignore_result_well_formed (fun _ => none) 0 "GHSA-aaaa-bbbb-cccc"
      (some ["CVE-2024-1234"]) (some "left-pad") sampleIgnorePolicy).1 (by decide)⟩

/-! C8: global ignores match on any id of the check set. -/

/-- C8: shouldIgnoreVulnerability reports ignored whenever any id of the
check set (primary id plus aliases) lies in the compiled global-ignore set,
and the reason names a matched id; in particular a globally ignored CVE alias
suppresses an advisory whose primary id differs. -/
theorem C8_global_ignore_checks_aliases (parseDate : String → Option Int) (now : Int)
    (vulnId : String) (vulnAliases : Option (List String)) (packageName : Option String)
    (config : CompiledIgnoreConfig)
    (h : ∃ id ∈ idsToCheck vulnId vulnAliases, id ∈ config.ignoreSet) :
    ∃ id, id ∈ idsToCheck vulnId vulnAliases ∧ id ∈ config.ignoreSet ∧
      shouldIgnoreVulnerability parseDate now vulnId vulnAliases packageName config =
        ⟨true, some ("globally ignored (" ++ id ++ ")")⟩ :=
  shouldIgnore_global_hit parseDate now vulnId vulnAliases packageName config h

/-- Witness for C8: the primary id GHSA-aaaa-bbbb-cccc is not globally
ignored, but its CVE alias is, so the advisory is suppressed with the
alias-naming reason. -/
theorem C8_global_ignore_checks_aliases_witness :
    (∃ id ∈ idsToCheck "GHSA-aaaa-bbbb-cccc" (some ["CVE-2024-1234"]),
        id ∈ sampleIgnorePolicy.ignoreSet) ∧
    ∃ id, id ∈ idsToCheck "GHSA-aaaa-bbbb-cccc" (some ["CVE-2024-1234"]) ∧
      id ∈ sampleIgnorePolicy.ignoreSet ∧
      shouldIgnoreVulnerability (fun _ => none) 0 "GHSA-aaaa-bbbb-cccc"
          (some ["CVE-2024-1234"]) (some "test-pkg") sampleIgnorePolicy =
        ⟨true, some ("globally ignored (" ++ id ++ ")")⟩ :=
  ⟨by decide,
   C8_global_ignore_checks_aliases (fun _ => none) 0 "GHSA-aaaa-bbbb-cccc"
     (some ["CVE-2024-1234"]) (some "test-pkg") sampleIgnorePolicy (by decide)⟩

/-! C7: an expired per-package rule is inert. -/

/-- C7: a per-package rule whose until date parses to a time strictly before
now is inert: when no id of the check set is globally ignored the result is
not-ignored even if the rule lists the id; and independently of any
per-package rule, a global hit still reports ignored, because the global
check runs first. -/
theorem C7_expired_rule_inert (parseDate : String → Option Int) (now : Int)
    (vulnId : String) (vulnAliases : Option (List String)) (name : String)
    (config : CompiledIgnoreConfig) (rule : CompiledPackageRule) (u : String) (t : Int)
    (hglobal : ∀ id ∈ idsToCheck vulnId vulnAliases, id ∉ config.ignoreSet)
    (hname : name ≠ "")
    (hrule : (config.packages.find? (fun e => e.1 = name)).map (fun e => e.2) = some rule)
    (hu : rule.until? = some u) (hune : u ≠ "")
    (hp : parseDate u = some t) (ht : t < now) :
    shouldIgnoreVulnerability parseDate now vulnId vulnAliases (some name) config =
      ⟨false, none⟩ ∧
    (∀ config2 : CompiledIgnoreConfig,
      (∃ id ∈ idsToCheck vulnId vulnAliases, id ∈ config2.ignoreSet) →
      (shouldIgnoreVulnerability parseDate now vulnId vulnAliases (some name)
          config2).ignored = true) := by
  constructor
  · have hnone : List.find? (fun id => config.ignoreSet.contains id)
        (vulnId :: vulnAliases.getD []) = none := by
      rw [List.find?_eq_none]
      intro x hx
      simpa using hglobal x (by simpa [idsToCheck] using hx)
    simp only [shouldIgnoreVulnerability]
    rw [hnone, hrule]
    simp [hname, hu, hune, untilExpired, hp, ht]
  · intro config2 h2
    obtain ⟨id0, _, _, heq⟩ :=
      shouldIgnore_global_hit parseDate now vulnId vulnAliases (some name) config2 h2
    simp [heq]

/-- Concrete date oracle for the C7 witness. -/
def sampleParseDate : String → Option Int :=
  fun s => if s = "2020-01-01" then some 0 else none

/-- Concrete policy with one expired per-package rule, for the C7 witness. -/
def expiredRulePolicy : CompiledIgnoreConfig :=
  ⟨[], [("lodash", ⟨["CVE-1"], some "2020-01-01", some "temporary waiver"⟩)]⟩

/-- Witness for C7: CVE-1 is listed only in the expired lodash rule, so it is
not ignored at time 100. -/
theorem C7_expired_rule_inert_witness :
    shouldIgnoreVulnerability sampleParseDate 100 "CVE-1" none (some "lodash")
        expiredRulePolicy = ⟨false, none⟩ ∧
    (shouldIgnoreVulnerability sampleParseDate 100 "CVE-1" none (some "lodash")
        ⟨["CVE-1"], expiredRulePolicy.packages⟩).ignored = true :=
  have h := C7_expired_rule_inert sampleParseDate 100 "CVE-1" none "lodash"
    expiredRulePolicy ⟨["CVE-1"], some "2020-01-01", some "temporary waiver"⟩
    "2020-01-01" 0 (by decide) (by decide) (by decide) rfl (by decide) rfl (by decide)
  ⟨h.1, h.2 ⟨["CVE-1"], expiredRulePolicy.packages⟩ (by decide)⟩

/-! C6: exponential backoff schedule of withRetry. -/

/-- C6: whenever a retry follows the failure of attempt number attempt, the
recorded wait is exactly delayMs * 1.5 ^ (attempt - 1) (first conjunct, for
every configuration and operation; rem + 2 iterations remaining states that
this failure is not the last allowed attempt); and for delayMs = 100,
maxAttempts = 4 with failures on attempts 1 through 3, the recorded sleeps
are exactly [100, 150, 225] and the attempt-4 value is returned. -/
theorem C6_retry_backoff_schedule (α : Type) :
    (∀ (cfg : RetryConfig) (op : Nat → Except String α) (attempt rem : Nat) (e : String),
        op attempt = .error e → shouldRetryD cfg e = true →
        (withRetryGo cfg op attempt (rem + 2)).1.head? =
          some (cfg.delayMs * (3 / 2 : ℚ) ^ (attempt - 1))) ∧
    (∀ (op : Nat → Except String α) (e1 e2 e3 : String) (v : α),
        op 1 = .error e1 → op 2 = .error e2 → op 3 = .error e3 → op 4 = .ok v →
        withRetry ⟨4, 100, none⟩ op = ([100, 150, 225], .ok v)) := by
  constructor
  · intro cfg op attempt rem e h hr
    simp [withRetryGo, h, hr]
  · intro op e1 e2 e3 v h1 h2 h3 h4
    simp [withRetry, withRetryGo, h1, h2, h3, h4, shouldRetryD]
    norm_num

/-- Concrete operation failing on attempts 1 through 3 and succeeding on 4. -/
def sampleRetryOp : Nat → Except String Nat :=
  fun attempt => if attempt = 4 then .ok 42 else .error "HTTP 503"

/-- Witness for C6 at the concrete failing-then-succeeding operation. -/
theorem C6_retry_backoff_schedule_witness :
    sampleRetryOp 1 = .error "HTTP 503" ∧ sampleRetryOp 4 = .ok 42 ∧
    withRetry ⟨4, 100, none⟩ sampleRetryOp = ([100, 150, 225], .ok 42) :=
  ⟨rfl, rfl,
   (C6_retry_backoff_schedule Nat).2 sampleRetryOp "HTTP 503" "HTTP 503" "HTTP 503" 42
     rfl rfl rfl rfl⟩

/-! C5: cross-source dedup of one GHSA/CVE pair. -/

/-- The first source's advisory: id GHSA-x, alias CVE-1, level warn. -/
def ghsaWarnAdvisory : Advisory :=
  ⟨"GHSA-x", "prototype pollution", .warn, "left-pad", none, none, some ["CVE-1"]⟩

/-- The second source's advisory: id CVE-1, level fatal. -/
def cveFatalAdvisory : Advisory :=
  ⟨"CVE-1", "prototype pollution", .fatal, "left-pad", none, none, none⟩

/-- A warn-level variant of the second advisory, for the tie case. -/
def cveWarnAdvisory : Advisory :=
  ⟨"CVE-1", "prototype pollution", .warn, "left-pad", none, none, none⟩

/-- C5: the GHSA-x/CVE-1 pair collapses to the single fatal advisory, which
the dedup map serves under either identifier; and in the equal-severity tie
the existing (first-seen) advisory is kept. -/
theorem C5_dedup_pair_keeps_fatal :
    deduplicateAdvisories [ghsaWarnAdvisory, cveFatalAdvisory] = [cveFatalAdvisory] ∧
    mapGet (dedupMap [ghsaWarnAdvisory, cveFatalAdvisory]) "left-pad:GHSA-x" =
      some cveFatalAdvisory ∧
    mapGet (dedupMap [ghsaWarnAdvisory, cveFatalAdvisory]) "left-pad:CVE-1" =
      some cveFatalAdvisory ∧
    deduplicateAdvisories [ghsaWarnAdvisory, cveWarnAdvisory] = [ghsaWarnAdvisory] := by
  decide

/-! C1: the dedup invariant fails on an incremental chain. -/

/-- First advisory of the chain: id a, level warn. -/
def chainFirstWarn : Advisory :=
  ⟨"a", "first report", .warn, "pkg", none, none, none⟩

/-- Second advisory of the chain: id b with alias a, level warn; the tie is
resolved in favour of the existing advisory, which then also owns the key
pkg:b. -/
def chainAliasWarn : Advisory :=
  ⟨"b", "second report", .warn, "pkg", none, none, some ["a"]⟩

/-- Third advisory of the chain: id a again, level fatal; it wins the merge,
but only the merged identity set pkg:a is repointed, so pkg:b keeps serving
the warn advisory. -/
def chainFatal : Advisory :=
  ⟨"a", "third report", .fatal, "pkg", none, none, none⟩

/-- C1: on the three-advisory chain for one package whose identity sets all
pairwise intersect (they share the id a), deduplication returns two
advisories, not one: the losing warn-level advisory with the same primary id
as the fatal winner survives in the output. -/
theorem C1_dedup_chain_leaves_loser :
    deduplicateAdvisories [chainFirstWarn, chainAliasWarn, chainFatal] =
      [chainFatal, chainFirstWarn] ∧
    chainFirstWarn.id = chainFatal.id ∧
    chainFirstWarn.package = chainFatal.package ∧
    chainFirstWarn.level = .warn ∧ chainFatal.level = .fatal := by
  decide

/-! C3: the aggregator scan tolerates rejected sources. -/

/-- Folding the settled results ignores every rejected entry, whatever the
accumulator. -/
theorem collectSettled_go_filter (results : List (Except String (List Advisory)))
    (acc : List Advisory) :
    results.foldl
        (fun acc r => match r with
          | .ok advisories => acc ++ advisories
          | .error _ => acc) acc =
      (results.filter (fun r => r.isOk)).foldl
        (fun acc r => match r with
          | .ok advisories => acc ++ advisories
          | .error _ => acc) acc := by
  induction results generalizing acc with
  | nil => rfl
  | cons r rest ih =>
      cases r with
      | ok v => simpa [Except.isOk] using ih (acc ++ v)
      | error e => simpa [Except.isOk] using ih acc

/-- Every value stored by mapSet with payload a keeps the all-values-equal-a
invariant. -/
theorem mapSet_values_const (a : Advisory) (m : List (String × Advisory)) (k : String)
    (hm : ∀ p ∈ m, p.2 = a) : ∀ p ∈ mapSet m k a, p.2 = a := by
  intro p hp
  unfold mapSet at hp
  split at hp
  · obtain ⟨q, hq, he⟩ := List.mem_map.mp hp
    by_cases hqk : q.1 = k
    · simp [hqk] at he
      rw [← he]
    · simp [hqk] at he
      exact he ▸ hm q hq
  · rcases List.mem_append.mp hp with h | h
    · exact hm p h
    · simp at h
      rw [h]

/-- The all-values-equal invariant survives a fold of mapSet insertions. -/
theorem foldl_mapSet_values_const (a : Advisory) (f : String → String) :
    ∀ (ids : List String) (m : List (String × Advisory)), (∀ p ∈ m, p.2 = a) →
      ∀ p ∈ ids.foldl (fun m id => mapSet m (f id) a) m, p.2 = a := by
  intro ids
  induction ids with
  | nil => intro m hm; exact hm
  | cons i rest ih =>
      intro m hm
      exact ih (mapSet m (f i) a) (mapSet_values_const a m (f i) hm)

/-- mapSet never returns the empty map. -/
theorem mapSet_ne_nil (m : List (String × Advisory)) (k : String) (v : Advisory) :
    mapSet m k v ≠ [] := by
  unfold mapSet
  split
  case isTrue h =>
    cases m with
    | nil => simp [mapHas] at h
    | cons p rest => simp
  case isFalse h => simp

/-- A fold of mapSet insertions over a nonempty map stays nonempty. -/
theorem foldl_mapSet_ne_nil (a : Advisory) (f : String → String) :
    ∀ (ids : List String) (m : List (String × Advisory)), m ≠ [] →
      ids.foldl (fun m id => mapSet m (f id) a) m ≠ [] := by
  intro ids
  induction ids with
  | nil => intro m hm; exact hm
  | cons i rest ih =>
      intro m hm
      exact ih (mapSet m (f i) a) (mapSet_ne_nil m (f i) a)

/-- setDedupAux drops everything already seen. -/
theorem setDedupAux_all_seen {α : Type} [DecidableEq α] :
    ∀ (l seen : List α), (∀ x ∈ l, x ∈ seen) → setDedupAux seen l = [] := by
  intro l
  induction l with
  | nil => intro seen _; rfl
  | cons x rest ih =>
      intro seen h
      have hx : x ∈ seen := h x (List.mem_cons_self x rest)
      simp only [setDedupAux, if_pos hx]
      exact ih seen (fun y hy => h y (List.mem_cons_of_mem x hy))

/-- A nonempty list all of whose elements equal a dedups to the singleton. -/
theorem setDedup_const (a : Advisory) :
    ∀ l : List Advisory, l ≠ [] → (∀ x ∈ l, x = a) → setDedup l = [a] := by
  intro l hne hall
  cases l with
  | nil => exact absurd rfl hne
  | cons x rest =>
      have hx : x = a := hall x (List.mem_cons_self x rest)
      subst hx
      simp only [setDedup, setDedupAux, List.not_mem_nil, if_neg (List.not_mem_nil x)]
      rw [setDedupAux_all_seen rest [x]
        (fun y hy => by simp [hall y (List.mem_cons_of_mem x hy)])]
      simp

/-- Deduplicating a single advisory returns exactly that advisory: it is
inserted under each of its identity keys and read back once. -/
theorem dedup_singleton (a : Advisory) : deduplicateAdvisories [a] = [a] := by
  have hins : dedupMap [a] =
      (advisoryIds a).foldl
        (fun m id => mapSet m (a.package ++ ":" ++ id) a) [] := by
    have hfind : (advisoryIds a).find?
        (fun id => mapHas [] (a.package ++ ":" ++ id)) = none := by
      rw [List.find?_eq_none]
      intro x _
      simp [mapHas]
    simp only [dedupMap, List.foldl, dedupInsert, hfind]
  have hids : advisoryIds a = a.id :: setDedupAux [a.id] (a.aliases.getD []) := by
    simp [advisoryIds, setDedup, setDedupAux]
  have hne : dedupMap [a] ≠ [] := by
    rw [hins, hids]
    simp only [List.foldl]
    exact foldl_mapSet_ne_nil a _ _ (mapSet [] (a.package ++ ":" ++ a.id) a)
      (mapSet_ne_nil [] _ a)
  have hconst : ∀ p ∈ dedupMap [a], p.2 = a := by
    rw [hins]
    exact foldl_mapSet_values_const a _ (advisoryIds a) [] (by simp)
  unfold deduplicateAdvisories
  apply setDedup_const
  · simpa using hne
  · intro x hx
    obtain ⟨p, hp, he⟩ := List.mem_map.mp hx
    exact he ▸ hconst p hp

/-- C3: the aggregator scan is a total function of the settled source
results; rejected sources contribute nothing (removing them leaves the output
unchanged), when every source rejects the output is the empty list, and with
one rejecting source and one source resolving with a single advisory the scan
resolves with exactly that advisory. -/
theorem C3_scan_tolerates_rejections (results : List (Except String (List Advisory)))
    (e : String) (a : Advisory) :
    scanMulti results = scanMulti (results.filter (fun r => r.isOk)) ∧
    ((∀ r ∈ results, ∀ v, r ≠ .ok v) → scanMulti results = []) ∧
    scanMulti [.error e, .ok [a]] = [a] := by
  refine ⟨?_, ?_, ?_⟩
  · unfold scanMulti collectSettled
    rw [collectSettled_go_filter]
  · intro h
    have hfil : results.filter (fun r => r.isOk) = [] := by
      rw [List.filter_eq_nil_iff]
      intro r hr
      cases r with
      | ok v => exact absurd rfl (h _ hr v)
      | error e2 => simp [Except.isOk, Except.toBool]
    unfold scanMulti collectSettled
    rw [collectSettled_go_filter, hfil]
    rfl
  · have hc : collectSettled [.error e, .ok [a]] = [a] := by
      simp [collectSettled]
    unfold scanMulti
    rw [hc]
    exact dedup_singleton a

/-- Witness for C3: one rejected source and one fulfilled source with a
concrete advisory. -/
theorem C3_scan_tolerates_rejections_witness :
    scanMulti [.error "network down", .ok [ghsaWarnAdvisory]] = [ghsaWarnAdvisory] :=
  (C3_scan_tolerates_rejections [] "network down" ghsaWarnAdvisory).2.2

/-! C2: severity classification. -/

/-- The boolean threshold test coincides with the rational statement
7.0 ≤ score. -/
theorem decScoreFatal_iff (d : DecScore) : decScoreFatal d = true ↔ (7 : ℚ) ≤ decScoreQ d := by
  have h10 : (0:ℚ) < (10:ℚ) ^ d.2 := by positivity
  unfold decScoreFatal decScoreQ
  rw [decide_eq_true_iff, le_div_iff₀ h10]
  exact_mod_cast Iff.rfl

/-- The OSV classifier is fatal exactly on a fatal textual severity or a
maximal CVSS-style score of at least 7.0. -/
theorem mapSeverityToLevel_fatal_iff (v : OSVVulnerability) :
    mapSeverityToLevel v = .fatal ↔
      textualFatal v = true ∨
      ∃ d, maxScore (cvssScores v) = some d ∧ (7 : ℚ) ≤ decScoreQ d := by
  unfold mapSeverityToLevel
  by_cases ht : textualFatal v
  · simp [ht]
  · simp only [ht, if_false, Bool.false_eq_true, false_or]
    cases hm : maxScore (cvssScores v) with
    | none => simp
    | some m =>
        show (if decScoreFatal m = true then Level.fatal else Level.warn) = Level.fatal ↔ _
        by_cases hf : decScoreFatal m
        · rw [if_pos hf]
          exact iff_of_true rfl ⟨m, rfl, (decScoreFatal_iff m).mp hf⟩
        · rw [if_neg hf]
          refine iff_of_false (by decide) ?_
          rintro ⟨d, hd, hq⟩
          rw [Option.some_inj] at hd
          subst hd
          exact hf ((decScoreFatal_iff m).mpr hq)

/-- The npm advisory level is fatal exactly on textual severity critical or
high (case-insensitively); no other field of the record can influence it. -/
theorem npm_level_fatal_iff (a : NpmAdvisory) (pkg : Package) (al : List String) :
    (createBunAdvisory a pkg al).level = .fatal ↔
      a.severity.toList.map Char.toLower = "critical".toList ∨
      a.severity.toList.map Char.toLower = "high".toList := by
  have hlevel : (createBunAdvisory a pkg al).level = npmMapSeverityToLevel a.severity := rfl
  rw [hlevel]
  unfold npmMapSeverityToLevel
  cases hc : (a.severity.toList.map Char.toLower == "critical".toList ||
      a.severity.toList.map Char.toLower == "high".toList) with
  | true =>
      simp only [hc]
      simp only [Bool.or_eq_true, beq_iff_eq] at hc
      simpa using hc
  | false =>
      simp only [hc]
      simp only [Bool.or_eq_false_iff] at hc
      refine iff_of_false (by decide) ?_
      rintro (h | h) <;> rw [h] at hc <;> simp at hc

/-- C2 (amended): the OSV classifier returns fatal exactly when an explicit
textual severity is CRITICAL or HIGH (case-insensitive) or the maximum
CVSS-style score present is at least 7.0, and warn otherwise (including with
no severity data); in particular a textual LOW with a CVSS score 9.0 is
fatal.  In the npm source, however, only the textual severity enum reaches
the classifier: the advisory's level is fatal exactly on textual
critical/high, independently of any cvss field of the record. -/
theorem C2_severity_classification (v : OSVVulnerability) (a : NpmAdvisory)
    (pkg : Package) (al : List String) :
    (mapSeverityToLevel v = .fatal ↔
      textualFatal v = true ∨
      ∃ d, maxScore (cvssScores v) = some d ∧ (7 : ℚ) ≤ decScoreQ d) ∧
    ((createBunAdvisory a pkg al).level = .fatal ↔
      a.severity.toList.map Char.toLower = "critical".toList ∨
      a.severity.toList.map Char.toLower = "high".toList) ∧
    mapSeverityToLevel ⟨"TEST-011", some ⟨some "LOW"⟩, some [⟨"CVSS_V3", "9.0"⟩]⟩ = .fatal :=
  ⟨mapSeverityToLevel_fatal_iff v, npm_level_fatal_iff a pkg al, by decide⟩

/-- An npm record carrying textual severity low together with a CVSS score of
9.0 (the shape the claim says must classify as fatal in both sources). -/
def npmLowCvss9 : NpmAdvisory :=
  { id := "1103907", title := "cookie parsing flaw", name := some "cookie"
    module_name := none, severity := "low", vulnerable_versions := "<0.7.0"
    url := "https://example.com/advisory", overview := none, recommendation := none
    cves := none, github_advisory_id := none, cvss := some ⟨9, none⟩ }

/-- Counterexample to C2 as stated: in the npm source the record with textual
severity low and CVSS score 9.0 is classified warn, not fatal, because the
processor hands only the textual severity to the classifier; the CVSS field
never reaches it (dropping the cvss field leaves the level unchanged). -/
theorem C2_severity_classification_cex :
    npmLowCvss9.severity = "low" ∧
    npmLowCvss9.cvss = some ⟨9, none⟩ ∧
    (createBunAdvisory npmLowCvss9 ⟨"cookie", "0.5.0"⟩ (buildAliases npmLowCvss9)).level =
      .warn ∧
    (createBunAdvisory npmLowCvss9 ⟨"cookie", "0.5.0"⟩ (buildAliases npmLowCvss9)).level =
      (createBunAdvisory { npmLowCvss9 with cvss := none } ⟨"cookie", "0.5.0"⟩
        (buildAliases npmLowCvss9)).level :=
  ⟨rfl, rfl, by decide, rfl⟩

/-- Concrete npm record with textual severity critical, for the C2 witness. -/
def npmCriticalSample : NpmAdvisory :=
  { id := "77", title := "rce", name := some "left-pad", module_name := none
    severity := "critical", vulnerable_versions := "<1.0.0"
    url := "https://example.com/a", overview := none, recommendation := none
    cves := none, github_advisory_id := none, cvss := none }

/-- Witness for C2 (amended) at concrete records on both sources. -/
theorem C2_severity_classification_witness :
    mapSeverityToLevel ⟨"TEST-001", some ⟨some "CRITICAL"⟩, none⟩ = .fatal ∧
    (createBunAdvisory npmCriticalSample ⟨"left-pad", "0.9.0"⟩ []).level = .fatal :=
  ⟨((C2_severity_classification ⟨"TEST-001", some ⟨some "CRITICAL"⟩, none⟩
      npmCriticalSample ⟨"left-pad", "0.9.0"⟩ []).1).mpr (Or.inl (by decide)),
   ((C2_severity_classification ⟨"TEST-001", some ⟨some "CRITICAL"⟩, none⟩
      npmCriticalSample ⟨"left-pad", "0.9.0"⟩ []).2.1).mpr (Or.inl (by decide))⟩

/-! C4: advisories per (identity, package) pair within one source. -/

/-- The input packages the advisory names and affects (the spec-side
characterization used by the amended C4). -/
def affectedCandidates (satisfies : String → String → Except String Bool)
    (advisory : NpmAdvisory) (pname : String) (packages : List Package) : List Package :=
  packages.filter (fun pkg =>
    pkg.name == pname && isVersionAffected satisfies pkg.version advisory.vulnerable_versions)

/-- First occurrence of each processed-pair key id:name@version (the
spec-side characterization used by the amended C4). -/
def firstPerKey (advisory : NpmAdvisory) : List Package → List String → List Package
  | [], _ => []
  | pkg :: rest, seen =>
      if pairKey advisory pkg ∈ seen then firstPerKey advisory rest seen
      else pkg :: firstPerKey advisory rest (pairKey advisory pkg :: seen)

/-- When the (advisory, package-name) pair is not ignored, the package loop
emits exactly one advisory per first occurrence of each processed-pair key
among the affected name-matching packages. -/
theorem processAdvisoryGo_not_ignored (satisfies : String → String → Except String Bool)
    (parseDate : String → Option Int) (now : Int) (cfg : CompiledIgnoreConfig)
    (advisory : NpmAdvisory) (pname : String) (aliases : List String)
    (hig : (shouldIgnoreVulnerability parseDate now advisory.id (some aliases)
        (some pname) cfg).ignored = false) :
    ∀ (ps : List Package) (seen : List String),
      (processAdvisoryGo satisfies parseDate now cfg advisory pname aliases ps seen).1 =
        (firstPerKey advisory (affectedCandidates satisfies advisory pname ps) seen).map
          (fun pkg => createBunAdvisory advisory pkg aliases) := by
  intro ps
  induction ps with
  | nil => intro seen; rfl
  | cons pkg rest ih =>
      intro seen
      by_cases hname : pkg.name = pname
      · by_cases hseen : pairKey advisory pkg ∈ seen
        · by_cases haff : isVersionAffected satisfies pkg.version advisory.vulnerable_versions
          · simp [processAdvisoryGo, hname, hseen, haff, ih seen, affectedCandidates,
              firstPerKey]
          · simp [processAdvisoryGo, hname, hseen, haff, ih seen, affectedCandidates,
              firstPerKey]
        · by_cases haff : isVersionAffected satisfies pkg.version advisory.vulnerable_versions
          · have hig2 : (shouldIgnoreVulnerability parseDate now advisory.id (some aliases)
                (some pkg.name) cfg).ignored = false := by rw [hname]; exact hig
            simp [processAdvisoryGo, hname, hseen, haff, hig2, hig, ih, affectedCandidates,
              firstPerKey]
          · simp [processAdvisoryGo, hname, hseen, haff, ih seen, affectedCandidates,
              firstPerKey]
      · simp [processAdvisoryGo, hname, ih seen, affectedCandidates]

/-- When the (advisory, package-name) pair is ignored, the package loop emits
nothing: ignored matches never reach the output. -/
theorem processAdvisoryGo_ignored (satisfies : String → String → Except String Bool)
    (parseDate : String → Option Int) (now : Int) (cfg : CompiledIgnoreConfig)
    (advisory : NpmAdvisory) (pname : String) (aliases : List String)
    (hig : (shouldIgnoreVulnerability parseDate now advisory.id (some aliases)
        (some pname) cfg).ignored = true) :
    ∀ (ps : List Package) (seen : List String),
      (processAdvisoryGo satisfies parseDate now cfg advisory pname aliases ps seen).1 =
        [] := by
  intro ps
  induction ps with
  | nil => intro seen; rfl
  | cons pkg rest ih =>
      intro seen
      by_cases hname : pkg.name = pname
      · by_cases hseen : pairKey advisory pkg ∈ seen
        · simp [processAdvisoryGo, hname, hseen, ih]
        · by_cases haff : isVersionAffected satisfies pkg.version advisory.vulnerable_versions
          · have hig2 : (shouldIgnoreVulnerability parseDate now advisory.id (some aliases)
                (some pkg.name) cfg).ignored = true := by rw [hname]; exact hig
            simp [processAdvisoryGo, hname, hseen, haff, hig2, hig, ih]
          · simp [processAdvisoryGo, hname, hseen, haff, ih]
      · simp [processAdvisoryGo, hname, ih]

/-- The representatives chosen by firstPerKey carry pairwise distinct keys,
none of which was seen before. -/
theorem firstPerKey_keys (advisory : NpmAdvisory) :
    ∀ (l : List Package) (seen : List String),
      ((firstPerKey advisory l seen).map (pairKey advisory)).Nodup ∧
      ∀ k ∈ (firstPerKey advisory l seen).map (pairKey advisory), k ∉ seen := by
  intro l
  induction l with
  | nil =>
      intro seen
      refine ⟨?_, ?_⟩ <;> simp [firstPerKey]
  | cons pkg rest ih =>
      intro seen
      by_cases hseen : pairKey advisory pkg ∈ seen
      · simpa [firstPerKey, hseen] using ih seen
      · have h2 := ih (pairKey advisory pkg :: seen)
        refine ⟨?_, ?_⟩
        · simp only [firstPerKey, if_neg hseen, List.map_cons, List.nodup_cons]
          refine ⟨fun hmem => ?_, h2.1⟩
          exact (h2.2 _ hmem) (List.mem_cons_self _ _)
        · simp only [firstPerKey, if_neg hseen, List.map_cons]
          intro k hk
          rcases List.mem_cons.mp hk with hk | hk
          · rw [hk]; exact hseen
          · intro hks
            exact (h2.2 k hk) (List.mem_cons_of_mem _ hks)

/-- C4 (amended): within one npm-source processAdvisory call there is exactly
one Advisory per processed-pair key id:name@version, not per package name:
unless the (advisory, package-name) pair is ignored, the output is exactly
one advisory for the first occurrence of each distinct affected name@version,
and the chosen keys are pairwise distinct. -/
theorem C4_one_advisory_per_key (satisfies : String → String → Except String Bool)
    (parseDate : String → Option Int) (now : Int) (cfg : CompiledIgnoreConfig)
    (advisory : NpmAdvisory) (pname : String) (packages : List Package)
    (hpn : advisoryPackageName advisory = some pname) :
    (processAdvisory satisfies parseDate now cfg advisory packages []).1 =
      (if (shouldIgnoreVulnerability parseDate now advisory.id
            (some (buildAliases advisory)) (some pname) cfg).ignored = true
       then []
       else
        (firstPerKey advisory (affectedCandidates satisfies advisory pname packages) []).map
          (fun pkg => createBunAdvisory advisory pkg (buildAliases advisory))) ∧
    ((firstPerKey advisory (affectedCandidates satisfies advisory pname packages) []).map
        (pairKey advisory)).Nodup := by
  constructor
  · unfold processAdvisory
    rw [hpn]
    by_cases hig : (shouldIgnoreVulnerability parseDate now advisory.id
        (some (buildAliases advisory)) (some pname) cfg).ignored = true
    · rw [if_pos hig]
      exact processAdvisoryGo_ignored satisfies parseDate now cfg advisory pname
        (buildAliases advisory) hig packages []
    · rw [if_neg hig]
      exact processAdvisoryGo_not_ignored satisfies parseDate now cfg advisory pname
        (buildAliases advisory) (by simpa using hig) packages []
  · exact (firstPerKey_keys advisory _ []).1

/-- Concrete semver oracle agreeing with real semver on the versions and the
range used by the C4 scenario. -/
def sampleSemver : String → String → Except String Bool :=
  fun v r => .ok (decide ((v = "1.0.0" ∨ v = "1.5.0") ∧ r = "<2.0.0"))

/-- One npm advisory naming package p with range < 2.0.0. -/
def twoVersionAdvisory : NpmAdvisory :=
  { id := "100", title := "prototype pollution", name := some "p", module_name := none
    severity := "high", vulnerable_versions := "<2.0.0", url := "https://example.com/a"
    overview := none, recommendation := none, cves := none, github_advisory_id := none
    cvss := none }

/-- Counterexample to C4 as stated: with two installed versions of package p
both inside the range, the npm processor emits two advisories for the same
(vulnerability-identity, package-name) pair, one per affected version. -/
theorem C4_one_advisory_per_key_cex :
    (processAdvisories sampleSemver (fun _ => none) 0 ⟨none, none⟩ [twoVersionAdvisory]
        [⟨"p", "1.0.0"⟩, ⟨"p", "1.5.0"⟩]).map (fun x => (x.id, x.package)) =
      [("100", "p"), ("100", "p")] := by
  decide

/-- Witness for C4 (amended) at the two-version scenario: the processed-pair
characterization holds and its keys are distinct. -/
theorem C4_one_advisory_per_key_witness :
    advisoryPackageName twoVersionAdvisory = some "p" ∧
    (processAdvisory sampleSemver (fun _ => none) 0 ⟨[], []⟩ twoVersionAdvisory
        [⟨"p", "1.0.0"⟩, ⟨"p", "1.5.0"⟩] []).1 =
      (if (shouldIgnoreVulnerability (fun _ => none) 0 twoVersionAdvisory.id
            (some (buildAliases twoVersionAdvisory)) (some "p") ⟨[], []⟩).ignored = true
       then []
       else
        (firstPerKey twoVersionAdvisory
            (affectedCandidates sampleSemver twoVersionAdvisory "p"
              [⟨"p", "1.0.0"⟩, ⟨"p", "1.5.0"⟩]) []).map
          (fun pkg => createBunAdvisory twoVersionAdvisory pkg
            (buildAliases twoVersionAdvisory))) ∧
    ((firstPerKey twoVersionAdvisory
        (affectedCandidates sampleSemver twoVersionAdvisory "p"
          [⟨"p", "1.0.0"⟩, ⟨"p", "1.5.0"⟩]) []).map
        (pairKey twoVersionAdvisory)).Nodup :=
  ⟨rfl,
   (C4_one_advisory_per_key sampleSemver (fun _ => none) 0 ⟨[], []⟩ twoVersionAdvisory "p"
      [⟨"p", "1.0.0"⟩, ⟨"p", "1.5.0"⟩] rfl).1,
   (C4_one_advisory_per_key sampleSemver (fun _ => none) 0 ⟨[], []⟩ twoVersionAdvisory "p"
      [⟨"p", "1.0.0"⟩, ⟨"p", "1.5.0"⟩] rfl).2⟩

end BunScan
